import Mathlib

/-
Verification of the client-side orchestration behaviour of the Analytics
RAG platform frontend (repository `ragService`).

The embedding below is a shallow model of the TypeScript/React sources:

* `src/unnamed/part_005` (the shared `types.ts`): `Source`, `MicrositeData`,
  `ArtifactData`, `Message` and `User`.
* `src/unnamed/part_003` (`ChatInterface.tsx`): the WebSocket `onmessage`
  handler, the `sendMessage` function and the session id generation
  `session_$\x7bDate.now()\x7d`.
* `src/frontend/src/components/Chat/MessageBubble.tsx`: the rendering of a
  source citation line, in particular the score percentage.
* `src/microsite/src/App.tsx`: the dashboard-data initialisation from the
  `data` URL parameter.

Modelling conventions: JavaScript `undefined`-able fields become `Option`;
numeric scores are modelled as exact rationals `ℚ` (the only operations the
code performs on them are truthiness, multiplication by 100 and
`toFixed(0)`); the clock (`Date.now()` in milliseconds and
`new Date().toISOString()`) is passed in explicitly as a `Clock` value; a
JavaScript exception escaping a handler is modelled by the handler
returning `none` (in React, state setters not yet executed at the point of
the throw are simply not executed, so the component state is unchanged).
-/

namespace RagService

/-- A source citation, from `Source` in `types.ts` (`src/unnamed/part_005`).
`score` is optional there (`score?: number`). -/
structure Source where
  file : String
  project : String
  type : String
  score : Option ℚ
  deriving Repr, DecidableEq

/-- Microsite payload, from `MicrositeData` in `types.ts`. The `data` field is
`any` in the source; it is opaque to every operation modelled here, so it is
kept as a raw string. -/
structure MicrositeData where
  title : String
  url : String
  data : String
  deriving Repr, DecidableEq

/-- Artifact metadata, from `ArtifactData` in `types.ts`. -/
structure ArtifactData where
  id : String
  filename : String
  mime_type : String
  download_url : String
  deriving Repr, DecidableEq

/-- The four values the `type` field of a `Message` can take in `types.ts`. -/
inductive MsgType where
  | user
  | assistant
  | artifact_generated
  | error
  deriving Repr, DecidableEq

/-- A chat message held in the component state, from `Message` in `types.ts`.
`content` is declared `string` there, but the handlers can store the result
of reading an absent JSON field, so at runtime it may be `undefined`; hence
`Option String` here. -/
structure Message where
  id : String
  type : MsgType
  content : Option String
  timestamp : String
  sources : Option (List Source)
  microsite : Option MicrositeData
  artifact : Option ArtifactData
  deriving Repr, DecidableEq

/-- The authenticated user, from `User` in `types.ts`. -/
structure User where
  id : String
  username : String
  name : String
  email : String
  tenant_id : String
  deriving Repr, DecidableEq

/-- The result of `JSON.parse(event.data)` in `ws.onmessage`
(`ChatInterface.tsx`), with exactly the fields that handler reads. Absent
JSON fields are `none`. -/
structure InData where
  type : String
  response : Option String
  sources : Option (List Source)
  microsite : Option MicrositeData
  artifact : Option ArtifactData
  error : Option String
  deriving Repr, DecidableEq

/-- The wall clock at the moment a handler runs: `Date.now()` in
milliseconds, and the string `new Date().toISOString()`. -/
structure Clock where
  nowMs : Nat
  isoNow : String
  deriving Repr, DecidableEq

/-- The state of the `ChatInterface` component: its `useState` hooks
(`messages`, `inputMessage`, `isLoading`, `websocket`) together with the
props it reads (`selectedProject`, `user`). The connection handle itself is
opaque, so `websocket` only records null versus non-null. -/
structure ClientState where
  selectedProject : String
  user : Option User
  messages : List Message
  inputMessage : String
  isLoading : Bool
  websocket : Option Unit
  deriving Repr, DecidableEq

/-- JavaScript `String.prototype.trim()`: strips leading and trailing
whitespace. Implemented structurally over the character list (rather than
through `String.trim`, whose well-founded recursion does not reduce) so
that concrete instances evaluate; `sendMessage` only tests whether the
trimmed input is empty. -/
def jsTrim (s : String) : String :=
  String.mk
    (((s.data.dropWhile Char.isWhitespace).reverse.dropWhile
        Char.isWhitespace).reverse)

/-- JavaScript `a || b` for an optional string `a`: `undefined` and the
empty string are falsy. Used for `user?.tenant_id || 'demo'`. -/
def jsOrString (a : Option String) (b : String) : String :=
  match a with
  | none => b
  | some v => if v = "" then b else v

/-- The session identifier generated at connection time in `ChatInterface`:
`session_$\x7bDate.now()\x7d` (line 30 of `src/unnamed/part_003`). -/
def sessionId (nowMs : Nat) : String :=
  "session_" ++ toString nowMs

/-- The `ws.onmessage` handler of `ChatInterface.tsx` (lines 46–85 of
`src/unnamed/part_003`). Returns the updated component state, or `none` when
the handler throws: the only throwing access is `data.artifact.filename`
when the `artifact` field is absent on an `artifact_generated` envelope, and
it happens before any state setter runs, so the state is unchanged in that
case. -/
def wsOnMessage (clock : Clock) (data : InData) (st : ClientState) :
    Option ClientState :=
  if data.type = "response" then
    let assistantMessage : Message :=
      { id := "msg_" ++ toString clock.nowMs ++ "_resp"
        type := MsgType.assistant
        content := data.response
        timestamp := clock.isoNow
        sources := data.sources
        microsite := data.microsite
        artifact := none }
    some { st with
            messages := st.messages ++ [assistantMessage]
            isLoading := false }
  else if data.type = "artifact_generated" then
    match data.artifact with
    | none => none
    | some art =>
      let artifactMessage : Message :=
        { id := "msg_" ++ toString clock.nowMs ++ "_art"
          type := MsgType.artifact_generated
          content := some ("Your requested artifact, \"" ++ art.filename ++
            "\", is ready! Click the link below to download.")
          timestamp := clock.isoNow
          sources := none
          microsite := none
          artifact := some art }
      some { st with messages := st.messages ++ [artifactMessage] }
  else if data.type = "error" then
    let errorMessage : Message :=
      { id := "msg_" ++ toString clock.nowMs ++ "_err"
        type := MsgType.assistant
        content := data.error
        timestamp := clock.isoNow
        sources := none
        microsite := none
        artifact := none }
    some { st with
            messages := st.messages ++ [errorMessage]
            isLoading := false }
  else
    some st

/-- The `project_context` object built in `sendMessage`. -/
structure ProjectContext where
  tenant_id : String
  project_ids : List String
  selected_project : String
  deriving Repr, DecidableEq

/-- The JSON object `sendMessage` writes to the WebSocket
(lines 118–126 of `src/unnamed/part_003`). -/
structure OutboundChat where
  message : String
  project_context : ProjectContext
  type : String
  deriving Repr, DecidableEq

/-- The `sendMessage` function of `ChatInterface.tsx` (lines 101–129 of
`src/unnamed/part_003`). Returns the updated component state together with
the payload written to the socket, if any. The guard
`!inputMessage.trim() || !websocket || isLoading` makes it a no-op when the
trimmed input is empty, the socket is not yet connected, or a previous chat
message is still awaiting its response. `selectedProject ? [...] : []`
tests string truthiness, i.e. non-emptiness. -/
def sendMessage (clock : Clock) (st : ClientState) :
    ClientState × Option OutboundChat :=
  if jsTrim st.inputMessage = "" ∨ st.websocket = none ∨ st.isLoading then
    (st, none)
  else
    let userMessage : Message :=
      { id := "msg_" ++ toString clock.nowMs ++ "_user"
        type := MsgType.user
        content := some st.inputMessage
        timestamp := clock.isoNow
        sources := none
        microsite := none
        artifact := none }
    let projectIds : List String :=
      if st.selectedProject = "" then [] else [st.selectedProject]
    let payload : OutboundChat :=
      { message := st.inputMessage
        project_context :=
          { tenant_id := jsOrString (st.user.map (·.tenant_id)) "demo"
            project_ids := projectIds
            selected_project := st.selectedProject }
        type := "chat" }
    ({ st with
        messages := st.messages ++ [userMessage]
        isLoading := true
        inputMessage := "" },
     some payload)

/-- JavaScript `Number.prototype.toFixed(0)` on an exact rational: the
ECMAScript specification picks the integer `n` closest to the value,
choosing the larger `n` on a tie, which is exactly `⌊x + 1/2⌋`, i.e.
Mathlib's `round`. -/
def toFixedZero (x : ℚ) : String :=
  toString (round x)

/-- The trailing score fragment of one source line in `MessageBubble.tsx`
(lines 76–81): the JSX expression `\x7bsource.score && (<>…</>)\x7d`. Per React
semantics, an `undefined` operand renders nothing, but the falsy number `0`
is itself rendered as the text node `"0"`; a truthy score renders the
separator and `Score: $\x7b(source.score * 100).toFixed(0)\x7d%`. The result is
the list of rendered text nodes. -/
def scoreNodes (score : Option ℚ) : List String :=
  match score with
  | none => []
  | some s =>
    if s = 0 then
      ["0"]
    else
      ["•", "Score: " ++ toFixedZero (s * 100) ++ "%"]

/-- The text nodes of one rendered source citation line in
`MessageBubble.tsx` (lines 67–82): the file name, a separator, the project,
then the score fragment. -/
def renderSourceLine (s : Source) : List String :=
  [s.file, "•", s.project] ++ scoreNodes s.score

/-- The dashboard-data initialisation effect of the microsite `App`
(`src/microsite/src/App.tsx`, lines 85–99), abstracted over the dashboard
data type `α` and over the two fallible browser primitives it uses inside
its `try` block: `decodeURIComponent` (throws `URIError` on malformed
input, modelled as `none`) and `JSON.parse` (throws `SyntaxError` on
malformed input, modelled as `none`). The state starts as `initial`
(`useState(sampleData)`) and `setDashboardData` runs only when both steps
succeed; any throw is caught and merely logged. -/
def dashboardDataAfterInit {α : Type} (decodeComponent : String → Option String)
    (jsonParse : String → Option α) (dataParam : Option String)
    (initial : α) : α :=
  match dataParam with
  | none => initial
  | some raw =>
    match (decodeComponent raw).bind jsonParse with
    | none => initial
    | some parsed => parsed

/-- One user-visible event hitting the `ChatInterface` component: either the
user types `text` and presses send (the `onChange` update of `inputMessage`
followed by `sendMessage`), or a WebSocket message arrives and runs
`ws.onmessage`. -/
inductive ClientEvent where
  | send (clock : Clock) (text : String)
  | recv (clock : Clock) (data : InData)
  deriving Repr, DecidableEq

/-- One step of the component under a `ClientEvent`: the resulting state and
the payload written to the socket, if any. A throwing `onmessage` handler
leaves the state unchanged (`Option.getD`). -/
def clientStep (st : ClientState) : ClientEvent → ClientState × Option OutboundChat
  | ClientEvent.send clock text => sendMessage clock { st with inputMessage := text }
  | ClientEvent.recv clock data => ((wsOnMessage clock data st).getD st, none)

/-- Number of chat payloads actually written to the socket while running the
given events from the given state. -/
def transmitCount (st : ClientState) : List ClientEvent → Nat
  | [] => 0
  | e :: es =>
    (if (clientStep st e).2.isSome then 1 else 0) + transmitCount (clientStep st e).1 es

/-- Whether an event is the reception of a terminal envelope for an
in-flight chat message: a `response` or an `error` envelope (the two
branches of `ws.onmessage` that clear `isLoading`). -/
def isTerminalRecv : ClientEvent → Bool
  | ClientEvent.recv _ data => data.type == "response" || data.type == "error"
  | ClientEvent.send _ _ => false

/-- Decimal value of a most-significant-digit-first list of digit
characters; left inverse of the digit-printing loop `Nat.toDigitsCore`,
used to show decimal printing (and hence the generated session ids) are
injective in the timestamp. -/
def decodeDecimal (l : List Char) : Nat :=
  l.foldl (fun acc c => acc * 10 + (c.toNat - 48)) 0

/-! Concrete sample values, used to instantiate the theorems below on
executable inputs. -/

/-- A concrete clock value: `Date.now() = 1700000000000`. -/
def sampleClock : Clock :=
  { nowMs := 1700000000000, isoNow := "2023-11-14T22:13:20.000Z" }

/-- A concrete authenticated user. -/
def sampleUser : User :=
  { id := "1", username := "demo", name := "Demo User",
    email := "demo@example.com", tenant_id := "tenant_demo" }

/-- The source citation of the spec scenario: `report.pdf` in project `6`
with score `0.82`. -/
def sampleSource : Source :=
  { file := "report.pdf", project := "6", type := "document",
    score := some (82 / 100) }

/-- A concrete generated artifact. -/
def sampleArtifact : ArtifactData :=
  { id := "a1", filename := "risk_log.xlsx",
    mime_type := "application/vnd.openxmlformats-officedocument.spreadsheetml.sheet",
    download_url := "/api/v1/artifacts/a1/download" }

/-- A concrete component state: project `6` selected, socket connected, a
typed message pending, not loading. -/
def sampleState : ClientState :=
  { selectedProject := "6", user := some sampleUser, messages := [],
    inputMessage := "What is the efficiency KPI?", isLoading := false,
    websocket := some () }

/-- The sample state with a chat message in flight. -/
def sampleLoadingState : ClientState :=
  { sampleState with isLoading := true }

/-- A concrete `response` envelope carrying one source. -/
def sampleResponseData : InData :=
  { type := "response", response := some "The efficiency KPI is 94.2 percent.",
    sources := some [sampleSource], microsite := none, artifact := none,
    error := none }

/-- A concrete `artifact_generated` envelope. -/
def sampleArtifactData : InData :=
  { type := "artifact_generated", response := none, sources := none,
    microsite := none, artifact := some sampleArtifact, error := none }

/-- A concrete `error` envelope. -/
def sampleErrorData : InData :=
  { type := "error", response := none, sources := none, microsite := none,
    artifact := none, error := some "Pipeline failure" }

/-- A concrete envelope of an unknown kind. -/
def samplePingData : InData :=
  { type := "ping", response := none, sources := none, microsite := none,
    artifact := none, error := none }

/-- The state `sendMessage sampleClock sampleState` steps to. -/
def sampleStateAfterSend : ClientState :=
  { sampleState with
      messages :=
        [{ id := "msg_1700000000000_user", type := MsgType.user,
           content := some "What is the efficiency KPI?",
           timestamp := "2023-11-14T22:13:20.000Z",
           sources := none, microsite := none, artifact := none }]
      isLoading := true
      inputMessage := "" }

/-- The payload `sendMessage sampleClock sampleState` writes to the socket. -/
def samplePayload : OutboundChat :=
  { message := "What is the efficiency KPI?"
    project_context :=
      { tenant_id := "tenant_demo", project_ids := ["6"],
        selected_project := "6" }
    type := "chat" }

/-! Helper lemmas: decimal printing is injective, so a session id determines
the `Date.now()` value it was built from. -/

theorem digitChar_toNat_of_lt : ∀ m, m < 10 → (Nat.digitChar m).toNat = m + 48 := by
  decide

theorem toDigitsCore_append (fuel : Nat) :
    ∀ n ds, Nat.toDigitsCore 10 fuel n ds = Nat.toDigitsCore 10 fuel n [] ++ ds := by
  induction fuel with
  | zero => intro n ds; simp [Nat.toDigitsCore]
  | succ f ih =>
    intro n ds
    simp only [Nat.toDigitsCore]
    by_cases h : n / 10 = 0
    · simp [h]
    · rw [if_neg h, if_neg h, ih (n / 10) (Nat.digitChar (n % 10) :: ds),
        ih (n / 10) [Nat.digitChar (n % 10)], List.append_assoc]
      rfl

theorem decodeDecimal_append_singleton (xs : List Char) (c : Char) :
    decodeDecimal (xs ++ [c]) = decodeDecimal xs * 10 + (c.toNat - 48) := by
  simp [decodeDecimal, List.foldl_append]

theorem decodeDecimal_toDigitsCore :
    ∀ fuel n, n < 10 ^ fuel →
      decodeDecimal (Nat.toDigitsCore 10 fuel n []) = n := by
  intro fuel
  induction fuel with
  | zero =>
    intro n hn
    have hn0 : n = 0 := by simpa using hn
    subst hn0
    simp [Nat.toDigitsCore, decodeDecimal]
  | succ f ih =>
    intro n hn
    simp only [Nat.toDigitsCore]
    by_cases h : n / 10 = 0
    · rw [if_pos h]
      have hm : n % 10 < 10 := Nat.mod_lt _ (by norm_num)
      simp [decodeDecimal, digitChar_toNat_of_lt _ hm]
      omega
    · rw [if_neg h, toDigitsCore_append, decodeDecimal_append_singleton]
      have hdiv : n / 10 < 10 ^ f := by
        rw [Nat.div_lt_iff_lt_mul (by norm_num)]
        calc n < 10 ^ (f + 1) := hn
          _ = 10 ^ f * 10 := by ring
      rw [ih _ hdiv, digitChar_toNat_of_lt _ (Nat.mod_lt _ (by norm_num))]
      omega

theorem natRepr_injective : Function.Injective Nat.repr := by
  intro a b h
  have hlist : Nat.toDigitsCore 10 (a + 1) a [] = Nat.toDigitsCore 10 (b + 1) b [] := by
    have hd := congrArg String.data h
    simpa [Nat.repr, Nat.toDigits, List.asString] using hd
  have ha : a < 10 ^ (a + 1) :=
    lt_of_lt_of_le (Nat.lt_pow_self (by norm_num) a)
      (Nat.pow_le_pow_right (by norm_num) (Nat.le_succ a))
  have hb : b < 10 ^ (b + 1) :=
    lt_of_lt_of_le (Nat.lt_pow_self (by norm_num) b)
      (Nat.pow_le_pow_right (by norm_num) (Nat.le_succ b))
  calc a = decodeDecimal (Nat.toDigitsCore 10 (a + 1) a []) :=
        (decodeDecimal_toDigitsCore _ _ ha).symm
    _ = decodeDecimal (Nat.toDigitsCore 10 (b + 1) b []) := by rw [hlist]
    _ = b := decodeDecimal_toDigitsCore _ _ hb

theorem sessionId_injective : Function.Injective sessionId := by
  intro a b h
  apply natRepr_injective
  have hd := congrArg String.data h
  simp only [sessionId, String.data_append] at hd
  have hdata : (toString a).data = (toString b).data :=
    List.append_cancel_left hd
  have : toString a = toString b := String.ext hdata
  simpa [toString] using this

/-! Helper lemmas about `sendMessage` and `ws.onmessage` used by the
sequencing claims. -/

theorem sendMessage_of_isLoading (clock : Clock) (st : ClientState)
    (h : st.isLoading = true) : sendMessage clock st = (st, none) := by
  simp [sendMessage, h]

theorem sendMessage_cases (clock : Clock) (st : ClientState) :
    sendMessage clock st = (st, none) ∨
    (st.isLoading = false ∧ (sendMessage clock st).1.isLoading = true ∧
      (sendMessage clock st).2.isSome = true) := by
  unfold sendMessage
  split
  · exact Or.inl rfl
  · rename_i hcond
    push_neg at hcond
    exact Or.inr ⟨by simpa using hcond.2.2, rfl, rfl⟩

theorem wsOnMessage_isLoading_of_not_terminal (clock : Clock) (d : InData)
    (st : ClientState) (h1 : d.type ≠ "response") (h2 : d.type ≠ "error") :
    ((wsOnMessage clock d st).getD st).isLoading = st.isLoading := by
  unfold wsOnMessage
  rw [if_neg h1]
  by_cases ha : d.type = "artifact_generated"
  · rw [if_pos ha]
    cases d.artifact <;> simp
  · rw [if_neg ha, if_neg h2]
    simp

theorem transmitCount_le_of_no_terminal :
    ∀ (evs : List ClientEvent) (st : ClientState),
      (∀ e ∈ evs, isTerminalRecv e = false) →
      transmitCount st evs ≤ (if st.isLoading then 0 else 1) := by
  intro evs
  induction evs with
  | nil => intro st _; simp [transmitCount]
  | cons e es ih =>
    intro st hno
    have hne : ∀ x ∈ es, isTerminalRecv x = false := fun x hx =>
      hno x (List.mem_cons_of_mem _ hx)
    have he : isTerminalRecv e = false := hno e (List.mem_cons_self _ _)
    cases e with
    | send clock text =>
      rcases sendMessage_cases clock { st with inputMessage := text } with hnoop | hsome
      · have htail := ih { st with inputMessage := text } hne
        simpa [transmitCount, clientStep, hnoop] using htail
      · obtain ⟨hfalse, hload, hout⟩ := hsome
        have hstl : st.isLoading = false := hfalse
        have htail : transmitCount (sendMessage clock { st with inputMessage := text }).1 es ≤ 0 := by
          have h0 := ih (sendMessage clock { st with inputMessage := text }).1 hne
          rw [hload] at h0
          simpa using h0
        have hbound : (if st.isLoading then (0 : ℕ) else 1) = 1 := by
          rw [hstl]; simp
        rw [hbound]
        simp only [transmitCount, clientStep, hout, if_true]
        omega
    | recv clock d =>
      have hd : d.type ≠ "response" ∧ d.type ≠ "error" := by
        simpa [isTerminalRecv] using he
      have hpres := wsOnMessage_isLoading_of_not_terminal clock d st hd.1 hd.2
      have htail := ih ((wsOnMessage clock d st).getD st) hne
      rw [hpres] at htail
      simpa [transmitCount, clientStep] using htail

/-! Branch equations for `ws.onmessage`. -/

theorem wsOnMessage_response_eq (clock : Clock) (d : InData) (st : ClientState)
    (h : d.type = "response") :
    wsOnMessage clock d st = some
      { st with
          messages := st.messages ++
            [{ id := "msg_" ++ toString clock.nowMs ++ "_resp"
               type := MsgType.assistant
               content := d.response
               timestamp := clock.isoNow
               sources := d.sources
               microsite := d.microsite
               artifact := none }]
          isLoading := false } := by
  simp [wsOnMessage, h]

theorem wsOnMessage_artifact_eq (clock : Clock) (d : InData) (st : ClientState)
    (a : ArtifactData) (ht : d.type = "artifact_generated")
    (ha : d.artifact = some a) :
    wsOnMessage clock d st = some
      { st with
          messages := st.messages ++
            [{ id := "msg_" ++ toString clock.nowMs ++ "_art"
               type := MsgType.artifact_generated
               content := some ("Your requested artifact, \"" ++ a.filename ++
                 "\", is ready! Click the link below to download.")
               timestamp := clock.isoNow
               sources := none
               microsite := none
               artifact := some a }] } := by
  simp [wsOnMessage, ht, ha]

theorem wsOnMessage_error_eq (clock : Clock) (d : InData) (st : ClientState)
    (h : d.type = "error") :
    wsOnMessage clock d st = some
      { st with
          messages := st.messages ++
            [{ id := "msg_" ++ toString clock.nowMs ++ "_err"
               type := MsgType.assistant
               content := d.error
               timestamp := clock.isoNow
               sources := none
               microsite := none
               artifact := none }]
          isLoading := false } := by
  simp [wsOnMessage, h]

theorem wsOnMessage_other_eq (clock : Clock) (d : InData) (st : ClientState)
    (h1 : d.type ≠ "response") (h2 : d.type ≠ "artifact_generated")
    (h3 : d.type ≠ "error") :
    wsOnMessage clock d st = some st := by
  simp [wsOnMessage, h1, h2, h3]

/-! The claims. -/

/-- Claim C1: an inbound event whose parsed `type` is `"response"` appends
exactly one assistant message whose content is the envelope's response
string and which carries the envelope's sources and microsite payload (and
clears the loading flag); for every other envelope kind, any message it
appends carries no sources. -/
theorem response_envelope_appends_sourced_assistant :
    (∀ (clock : Clock) (d : InData) (st : ClientState), d.type = "response" →
      wsOnMessage clock d st = some
        { st with
            messages := st.messages ++
              [{ id := "msg_" ++ toString clock.nowMs ++ "_resp"
                 type := MsgType.assistant
                 content := d.response
                 timestamp := clock.isoNow
                 sources := d.sources
                 microsite := d.microsite
                 artifact := none }]
            isLoading := false }) ∧
    (∀ (clock : Clock) (d : InData) (st st' : ClientState),
      d.type ≠ "response" → wsOnMessage clock d st = some st' →
      ∃ new, st'.messages = st.messages ++ new ∧
        ∀ m ∈ new, m.sources = none) := by
  constructor
  · intro clock d st h
    exact wsOnMessage_response_eq clock d st h
  · intro clock d st st' hne h
    by_cases ha : d.type = "artifact_generated"
    · cases hart : d.artifact with
      | none =>
        rw [wsOnMessage, if_neg hne, if_pos ha, hart] at h
        exact absurd h (by simp)
      | some a =>
        rw [wsOnMessage_artifact_eq clock d st a ha hart,
          Option.some.injEq] at h
        subst h
        refine ⟨_, rfl, ?_⟩
        intro m hm
        simp only [List.mem_singleton] at hm
        subst hm
        rfl
    · by_cases he : d.type = "error"
      · rw [wsOnMessage_error_eq clock d st he, Option.some.injEq] at h
        subst h
        refine ⟨_, rfl, ?_⟩
        intro m hm
        simp only [List.mem_singleton] at hm
        subst hm
        rfl
      · rw [wsOnMessage_other_eq clock d st hne ha he, Option.some.injEq] at h
        subst h
        exact ⟨[], by simp, by simp⟩

/-- Witness for C1, on a concrete `response` envelope carrying one source. -/
theorem response_envelope_appends_sourced_assistant_witness :
    sampleResponseData.type = "response" ∧
    wsOnMessage sampleClock sampleResponseData sampleState = some
      { sampleState with
          messages := sampleState.messages ++
            [{ id := "msg_" ++ toString sampleClock.nowMs ++ "_resp"
               type := MsgType.assistant
               content := sampleResponseData.response
               timestamp := sampleClock.isoNow
               sources := sampleResponseData.sources
               microsite := sampleResponseData.microsite
               artifact := none }]
          isLoading := false } :=
  ⟨rfl, response_envelope_appends_sourced_assistant.1
    sampleClock sampleResponseData sampleState rfl⟩

/-- Claim C2: a source with score 0.82 is rendered as `Score: 82%`, and in
general a present non-zero score `q` is rendered as `q * 100` rounded to
the nearest integer (ties upward, as `toFixed(0)` does) followed by `%`. -/
theorem score_rendering_percent :
    (renderSourceLine
        { file := "report.pdf", project := "6", type := "document",
          score := some (82 / 100) } =
      ["report.pdf", "•", "6", "•", "Score: 82%"]) ∧
    (∀ (s : Source) (q : ℚ), s.score = some q → q ≠ 0 →
      renderSourceLine s =
        [s.file, "•", s.project, "•",
          "Score: " ++ toString ⌊q * 100 + 1 / 2⌋ ++ "%"]) := by
  constructor
  · have hfix : toFixedZero (82 : ℚ) = "82" := by
      rw [toFixedZero, show round (82 : ℚ) = 82 from by norm_num [round_eq]]
      rfl
    have harg : (82 / 100 : ℚ) * 100 = 82 := by norm_num
    norm_num [renderSourceLine, scoreNodes, harg, hfix]
    rfl
  · intro s q hq hne
    simp [renderSourceLine, scoreNodes, hq, hne, toFixedZero, round_eq]

/-- Witness for C2, on the spec scenario source `report.pdf`, project `6`,
score `0.82`. -/
theorem score_rendering_percent_witness :
    sampleSource.score = some (82 / 100) ∧ (82 / 100 : ℚ) ≠ 0 ∧
    renderSourceLine sampleSource =
      [sampleSource.file, "•", sampleSource.project, "•",
        "Score: " ++ toString ⌊(82 / 100 : ℚ) * 100 + 1 / 2⌋ ++ "%"] :=
  ⟨rfl, by norm_num,
    score_rendering_percent.2 sampleSource (82 / 100) rfl (by norm_num)⟩

/-- Claim C3: every chat payload written to the socket has exactly the shape
of `OutboundChat` with `type = "chat"`, the typed message, the snapshot of
the tenant id, the selected project, and `project_ids` equal to the
singleton of the selected project when one is selected and empty
otherwise. -/
theorem outbound_chat_shape (clock : Clock) (st st' : ClientState)
    (out : OutboundChat) (h : sendMessage clock st = (st', some out)) :
    out =
      { message := st.inputMessage
        project_context :=
          { tenant_id := jsOrString (st.user.map (·.tenant_id)) "demo"
            project_ids :=
              if st.selectedProject = "" then [] else [st.selectedProject]
            selected_project := st.selectedProject }
        type := "chat" } := by
  unfold sendMessage at h
  split at h
  · exact absurd h (by simp)
  · simp only [Prod.mk.injEq, Option.some.injEq] at h
    exact h.2.symm

/-- Witness for C3, on the concrete sample state with project `6`
selected. -/
theorem outbound_chat_shape_witness :
    sendMessage sampleClock sampleState =
      (sampleStateAfterSend, some samplePayload) ∧
    samplePayload =
      { message := sampleState.inputMessage
        project_context :=
          { tenant_id := jsOrString (sampleState.user.map (·.tenant_id)) "demo"
            project_ids :=
              if sampleState.selectedProject = "" then []
              else [sampleState.selectedProject]
            selected_project := sampleState.selectedProject }
        type := "chat" } :=
  ⟨by decide,
    outbound_chat_shape sampleClock sampleState sampleStateAfterSend
      samplePayload (by decide)⟩

/-- Claim C4: while the loading flag is set, `sendMessage` is a no-op (the
state is unchanged and nothing is written to the socket); consequently at
most one chat message is ever in flight — any run of client events that
contains no terminal (`response` or `error`) reception writes at most one
chat payload to the socket. -/
theorem sequential_at_most_one_inflight :
    (∀ (clock : Clock) (st : ClientState), st.isLoading = true →
      sendMessage clock st = (st, none)) ∧
    (∀ (evs : List ClientEvent) (st : ClientState),
      (∀ e ∈ evs, isTerminalRecv e = false) →
      transmitCount st evs ≤ 1) := by
  constructor
  · exact sendMessage_of_isLoading
  · intro evs st h
    calc transmitCount st evs ≤ (if st.isLoading then 0 else 1) :=
          transmitCount_le_of_no_terminal evs st h
      _ ≤ 1 := by split <;> omega

/-- Witness for C4: a loading state swallows a send, and a concrete
terminal-free run transmits at most once. -/
theorem sequential_at_most_one_inflight_witness :
    sampleLoadingState.isLoading = true ∧
    sendMessage sampleClock sampleLoadingState = (sampleLoadingState, none) ∧
    (∀ e ∈ [ClientEvent.send sampleClock "hello",
            ClientEvent.recv sampleClock sampleArtifactData],
        isTerminalRecv e = false) ∧
    transmitCount sampleState
      [ClientEvent.send sampleClock "hello",
       ClientEvent.recv sampleClock sampleArtifactData] ≤ 1 :=
  ⟨rfl,
   sequential_at_most_one_inflight.1 sampleClock sampleLoadingState rfl,
   by decide,
   sequential_at_most_one_inflight.2 _ sampleState (by decide)⟩

/-- Claim C5: an `artifact_generated` envelope carrying an artifact appends
exactly one `artifact_generated` message whose text names the artifact's
filename and which carries the artifact payload, while the loading flag,
the input buffer, the socket handle and the props are all unchanged. -/
theorem artifact_envelope_appends_and_frames (clock : Clock) (d : InData)
    (st : ClientState) (a : ArtifactData)
    (ht : d.type = "artifact_generated") (ha : d.artifact = some a) :
    wsOnMessage clock d st = some
      { st with
          messages := st.messages ++
            [{ id := "msg_" ++ toString clock.nowMs ++ "_art"
               type := MsgType.artifact_generated
               content := some ("Your requested artifact, \"" ++ a.filename ++
                 "\", is ready! Click the link below to download.")
               timestamp := clock.isoNow
               sources := none
               microsite := none
               artifact := some a }] } ∧
    (({ st with
          messages := st.messages ++
            [{ id := "msg_" ++ toString clock.nowMs ++ "_art"
               type := MsgType.artifact_generated
               content := some ("Your requested artifact, \"" ++ a.filename ++
                 "\", is ready! Click the link below to download.")
               timestamp := clock.isoNow
               sources := none
               microsite := none
               artifact := some a }] } : ClientState).isLoading
        = st.isLoading) := by
  exact ⟨wsOnMessage_artifact_eq clock d st a ht ha, rfl⟩

/-- Witness for C5, on a concrete `artifact_generated` envelope received
while a chat message is in flight. -/
theorem artifact_envelope_appends_and_frames_witness :
    sampleArtifactData.type = "artifact_generated" ∧
    sampleArtifactData.artifact = some sampleArtifact ∧
    wsOnMessage sampleClock sampleArtifactData sampleLoadingState = some
      { sampleLoadingState with
          messages := sampleLoadingState.messages ++
            [{ id := "msg_" ++ toString sampleClock.nowMs ++ "_art"
               type := MsgType.artifact_generated
               content := some ("Your requested artifact, \"" ++
                 sampleArtifact.filename ++
                 "\", is ready! Click the link below to download.")
               timestamp := sampleClock.isoNow
               sources := none
               microsite := none
               artifact := some sampleArtifact }] } :=
  ⟨rfl, rfl,
    (artifact_envelope_appends_and_frames sampleClock sampleArtifactData
      sampleLoadingState sampleArtifact rfl rfl).1⟩

/-- Claim C6: an `error` envelope appends exactly one assistant message
whose content is exactly the envelope's error string (nothing added by the
client) and clears the loading flag. -/
theorem error_envelope_appends_and_unblocks (clock : Clock) (d : InData)
    (st : ClientState) (ht : d.type = "error") :
    wsOnMessage clock d st = some
      { st with
          messages := st.messages ++
            [{ id := "msg_" ++ toString clock.nowMs ++ "_err"
               type := MsgType.assistant
               content := d.error
               timestamp := clock.isoNow
               sources := none
               microsite := none
               artifact := none }]
          isLoading := false } :=
  wsOnMessage_error_eq clock d st ht

/-- Witness for C6, on a concrete `error` envelope. -/
theorem error_envelope_appends_and_unblocks_witness :
    sampleErrorData.type = "error" ∧
    wsOnMessage sampleClock sampleErrorData sampleLoadingState = some
      { sampleLoadingState with
          messages := sampleLoadingState.messages ++
            [{ id := "msg_" ++ toString sampleClock.nowMs ++ "_err"
               type := MsgType.assistant
               content := sampleErrorData.error
               timestamp := sampleClock.isoNow
               sources := none
               microsite := none
               artifact := none }]
          isLoading := false } :=
  ⟨rfl, error_envelope_appends_and_unblocks sampleClock sampleErrorData
    sampleLoadingState rfl⟩

/-- Claim C7 (counterexample): the session id is `session_` followed by
`Date.now()`, whose resolution is one millisecond. Two connections opened
within the same millisecond — a sorted, hence temporally possible, sequence
of open times — therefore receive identical session ids, contradicting the
claim that every opened connection's id is distinct from every previously
opened one. -/
theorem same_millisecond_session_collision :
    List.Sorted (· ≤ ·) [1700000000000, 1700000000000] ∧
    ¬ (List.map sessionId [1700000000000, 1700000000000]).Nodup := by
  constructor
  · simp
  · decide

/-- Claim C7 (amended): each connection's session id is derived solely from
the clock value at open time (never resurrected from a stored id), and
connections opened at distinct millisecond timestamps receive distinct
session ids; only two opens within the same millisecond collide. -/
theorem sessionId_fresh_of_distinct_times (t1 t2 : Nat) (h : t1 ≠ t2) :
    sessionId t1 ≠ sessionId t2 :=
  fun hc => h (sessionId_injective hc)

/-- Witness for the amended C7, at two concrete adjacent timestamps. -/
theorem sessionId_fresh_of_distinct_times_witness :
    (1700000000000 : Nat) ≠ 1700000000001 ∧
    sessionId 1700000000000 ≠ sessionId 1700000000001 :=
  ⟨by decide, sessionId_fresh_of_distinct_times 1700000000000 1700000000001
    (by decide)⟩

/-- Claim C8 (counterexample): for a present score equal to 0 the rendered
line is not just the file and the project. The JSX guard
`source.score && …` evaluates to the number 0, and React renders a falsy
numeric operand as a text node, so a stray `0` is rendered after the
project name. -/
theorem zero_score_line_cex :
    renderSourceLine
        { file := "report.pdf", project := "6", type := "document",
          score := some 0 } =
      ["report.pdf", "•", "6", "0"] ∧
    renderSourceLine
        { file := "report.pdf", project := "6", type := "document",
          score := some 0 } ≠
      ["report.pdf", "•", "6"] := by
  constructor
  · simp [renderSourceLine, scoreNodes]
  · simp [renderSourceLine, scoreNodes]

/-- Claim C8 (amended): a source with an absent score renders only the file
and the project; a source with score 0 is never rendered as `Score: 0%`,
but the falsy numeric value itself leaks through as a bare `0` text node
after the project name. -/
theorem score_zero_and_absent_rendering :
    (∀ s : Source, s.score = none →
      renderSourceLine s = [s.file, "•", s.project]) ∧
    (∀ s : Source, s.score = some 0 →
      renderSourceLine s = [s.file, "•", s.project, "0"]) := by
  constructor
  · intro s h
    simp [renderSourceLine, scoreNodes, h]
  · intro s h
    simp [renderSourceLine, scoreNodes, h]

/-- Witness for the amended C8, at concrete sources with an absent score
and with score 0. -/
theorem score_zero_and_absent_rendering_witness :
    ({ file := "a.pdf", project := "1", type := "document",
        score := none } : Source).score = none ∧
    renderSourceLine
        { file := "a.pdf", project := "1", type := "document",
          score := none } = ["a.pdf", "•", "1"] ∧
    ({ file := "b.pdf", project := "2", type := "document",
        score := some 0 } : Source).score = some 0 ∧
    renderSourceLine
        { file := "b.pdf", project := "2", type := "document",
          score := some 0 } = ["b.pdf", "•", "2", "0"] :=
  ⟨rfl, score_zero_and_absent_rendering.1 _ rfl, rfl,
    score_zero_and_absent_rendering.2 _ rfl⟩

/-- Claim C9: an inbound event whose parsed type is none of `response`,
`artifact_generated`, `error` changes nothing: the handler returns the
state unchanged, so no message is appended and the loading flag keeps its
value. -/
theorem unknown_envelope_is_noop (clock : Clock) (d : InData)
    (st : ClientState) (h1 : d.type ≠ "response")
    (h2 : d.type ≠ "artifact_generated") (h3 : d.type ≠ "error") :
    wsOnMessage clock d st = some st :=
  wsOnMessage_other_eq clock d st h1 h2 h3

/-- Witness for C9, on a concrete `ping` envelope. -/
theorem unknown_envelope_is_noop_witness :
    samplePingData.type ≠ "response" ∧
    samplePingData.type ≠ "artifact_generated" ∧
    samplePingData.type ≠ "error" ∧
    wsOnMessage sampleClock samplePingData sampleState = some sampleState :=
  ⟨by decide, by decide, by decide,
    unknown_envelope_is_noop sampleClock samplePingData sampleState
      (by decide) (by decide) (by decide)⟩

/-- Claim C10: the microsite dashboard state is replaced exactly when the
`data` URL parameter is present and both `decodeURIComponent` and
`JSON.parse` succeed on it; when the parameter is absent or either step
fails, the state keeps the built-in sample data, and the failure is caught
rather than crashing the page (the initialisation is a total function). -/
theorem dashboard_init_replacement {α : Type}
    (decodeComponent : String → Option String)
    (jsonParse : String → Option α) (initial : α) :
    (dashboardDataAfterInit decodeComponent jsonParse none initial =
      initial) ∧
    (∀ raw, (decodeComponent raw).bind jsonParse = none →
      dashboardDataAfterInit decodeComponent jsonParse (some raw) initial =
        initial) ∧
    (∀ raw d, (decodeComponent raw).bind jsonParse = some d →
      dashboardDataAfterInit decodeComponent jsonParse (some raw) initial =
        d) := by
  refine ⟨rfl, ?_, ?_⟩
  · intro raw h
    simp [dashboardDataAfterInit, h]
  · intro raw d h
    simp [dashboardDataAfterInit, h]

/-- Witness for C10, with a concrete parser that fails on the given
parameter, so the sample data is kept. -/
theorem dashboard_init_replacement_witness :
    ((Option.some "bad").bind
        (fun s => if s = "good" then some 7 else none) = none) ∧
    dashboardDataAfterInit Option.some
        (fun s => if s = "good" then some 7 else none) (some "bad") 0 = 0 :=
  ⟨by decide,
    (dashboard_init_replacement Option.some
        (fun s => if s = "good" then some 7 else none) 0).2.1 "bad"
      (by decide)⟩

end RagService
